import Mathlib

/-!
Verification of the ClubHub ledger & membership-authorization subsystem.

This file shallowly embeds the payment-ledger and membership code of the
repository (`backend/app/services/db_service.py` — the `LocalDBService`
SQLite backend, which `get_db_service` uses by default — together with the
API handlers in `backend/app/api/payments.py` and
`backend/app/api/members.py`) and proves or refutes the specified
properties about it.

Modelling conventions:
- SQL rows become Lean structures; the `payments` table is a list kept
  newest-first (matching `ORDER BY created_at DESC`), so an `INSERT`
  prepends; `group_members` is a list of membership rows.
- Monetary amounts (`REAL` columns) are modelled as `Int`: the claims
  concern the sign/summation structure of the ledger arithmetic, not
  floating-point rounding.
- `uuid.uuid4()` fresh payment ids are modelled by a `nextId` counter on
  the database state.
- `datetime.utcnow()` is passed in as an explicit `now`/`today` string.
- Each FastAPI handler becomes a pure function `... → Except HErr α`;
  `HErr` carries the `HTTPException` status code and detail string.  All
  validation in the handlers happens before any write, so an `.error`
  result corresponds to a request that mutated nothing.
-/

namespace ClubHub

/-- Membership role, the `role` column of `group_members` ('admin' | 'member'). -/
inductive Role
  | admin
  | member
deriving DecidableEq, Repr

/-- The `payment_type` column ('CHARGE' | 'CREDIT'). -/
inductive PaymentType
  | CHARGE
  | CREDIT
deriving DecidableEq, Repr

/-- The `status` column ('PENDING' | 'PAID' | 'OVERDUE'). -/
inductive PayStatus
  | PENDING
  | PAID
  | OVERDUE
deriving DecidableEq, Repr

/-- One row of the `group_members` table (primary key `(group_id, user_id)`). -/
structure Member where
  groupId : Nat
  userId : String
  role : Role
  balance : Int
deriving DecidableEq, Repr

/-- One row of the `payments` table (primary key `payment_id`). -/
structure Payment where
  paymentId : String
  groupId : Nat
  userId : String
  amount : Int
  description : String
  payType : PaymentType
  status : PayStatus
  dueDate : Option String
  paidDate : Option String
  createdBy : String
  createdAt : String
deriving DecidableEq, Repr

/-- The database state handled by `LocalDBService`: the membership and
payment tables (payments newest-first), plus the fresh-id counter that
models `uuid.uuid4()`. -/
structure DB where
  members : List Member
  payments : List Payment
  nextId : Nat
deriving DecidableEq, Repr

/-- `LocalDBService.get_user_membership`: first membership row of the user
(`WHERE gm.user_id = ? LIMIT 1`). -/
def DB.get_user_membership (db : DB) (uid : String) : Option Member :=
  db.members.find? (fun m => m.userId == uid)

/-- `LocalDBService.get_group_admin_count`:
`COUNT(*) WHERE group_id = ? AND role = 'admin'`. -/
def DB.get_group_admin_count (db : DB) (gid : Nat) : Nat :=
  (db.members.filter (fun m => m.groupId == gid && m.role == Role.admin)).length

/-- `LocalDBService.update_member_role`:
`UPDATE group_members SET role = ? WHERE group_id = ? AND user_id = ?`. -/
def DB.update_member_role (db : DB) (gid : Nat) (uid : String) (r : Role) : DB :=
  { db with members := db.members.map (fun m =>
      if m.groupId == gid && m.userId == uid then { m with role := r } else m) }

/-- `LocalDBService.update_member_balance`:
`UPDATE group_members SET balance = balance + ? WHERE user_id = ? AND group_id = ?`. -/
def DB.update_member_balance (db : DB) (uid : String) (gid : Nat) (amount : Int) : DB :=
  { db with members := db.members.map (fun m =>
      if m.userId == uid && m.groupId == gid then { m with balance := m.balance + amount } else m) }

/-- `LocalDBService.get_user_balance`: the stored `balance` column, `0.0`
when the row is absent. -/
def DB.get_user_balance (db : DB) (uid : String) (gid : Nat) : Int :=
  match db.members.find? (fun m => m.userId == uid && m.groupId == gid) with
  | some m => m.balance
  | none => 0

/-- `LocalDBService.remove_member`:
`DELETE FROM group_members WHERE user_id = ? AND group_id = ?`. -/
def DB.remove_member (db : DB) (uid : String) (gid : Nat) : DB :=
  { db with members := db.members.filter (fun m => !(m.userId == uid && m.groupId == gid)) }

/-- `LocalDBService.remove_group_member`, the argument-swapping wrapper
used by `members.py`. -/
def DB.remove_group_member (db : DB) (gid : Nat) (uid : String) : DB :=
  db.remove_member uid gid

/-- `LocalDBService.create_payment`: insert the payment row, then adjust
the member balance by `+amount` for CHARGE and `-amount` for CREDIT
(unconditionally, whatever the row status is).  The insert is a prepend
because the payment list is kept newest-first; the model also bumps the
fresh-id counter here. -/
def DB.create_payment (db : DB) (p : Payment) : DB :=
  let db1 : DB := { db with payments := p :: db.payments, nextId := db.nextId + 1 }
  match p.payType with
  | PaymentType.CHARGE => db1.update_member_balance p.userId p.groupId p.amount
  | PaymentType.CREDIT => db1.update_member_balance p.userId p.groupId (-p.amount)

/-- `LocalDBService.get_payment` / `get_payment_by_id`. -/
def DB.get_payment (db : DB) (pid : String) : Option Payment :=
  db.payments.find? (fun p => p.paymentId == pid)

/-- `LocalDBService.get_group_payments`: rows of the group, optionally
filtered by user and status, newest first. -/
def DB.get_group_payments (db : DB) (gid : Nat) (uidF : Option String)
    (stF : Option PayStatus) : List Payment :=
  db.payments.filter (fun p => p.groupId == gid
    && (match uidF with | some u => p.userId == u | none => true)
    && (match stF with | some s => p.status == s | none => true))

/-- The `update_data` dict built by `update_payment_status`: a new status,
and optionally a new value for `paid_date` (`none` when the key is absent
and the stored date is kept). -/
structure PaymentUpdate where
  status : PayStatus
  paidDate : Option (Option String)
deriving DecidableEq, Repr

/-- `LocalDBService.update_payment` specialised to the `update_data`
dictionaries the payments API builds (status plus optional paid_date). -/
def DB.update_payment (db : DB) (pid : String) (u : PaymentUpdate) : DB :=
  { db with payments := db.payments.map (fun p =>
      if p.paymentId == pid then
        { p with status := u.status,
                 paidDate := match u.paidDate with | some d => d | none => p.paidDate }
      else p) }

/-- `LocalDBService.delete_payment`: load the row (no-op when absent),
delete it, then reverse the balance adjustment unconditionally:
`-amount` for CHARGE, `+amount` for CREDIT — whatever the row status. -/
def DB.delete_payment (db : DB) (pid : String) : DB :=
  match db.get_payment pid with
  | none => db
  | some p =>
    let db1 : DB := { db with payments := db.payments.filter (fun q => !(q.paymentId == pid)) }
    match p.payType with
    | PaymentType.CHARGE => db1.update_member_balance p.userId p.groupId (-p.amount)
    | PaymentType.CREDIT => db1.update_member_balance p.userId p.groupId p.amount

/-- An `HTTPException`: status code and detail string. -/
structure HErr where
  code : Nat
  detail : String
deriving DecidableEq, Repr

/-- The fresh payment id `str(uuid.uuid4())`, modelled from the counter. -/
def freshId (db : DB) : String := "p" ++ toString db.nextId

/-- `request.payment_type not in ["CHARGE", "CREDIT"]` check plus decoding. -/
def parseType (s : String) : Option PaymentType :=
  if s = "CHARGE" then some PaymentType.CHARGE
  else if s = "CREDIT" then some PaymentType.CREDIT
  else none

/-- `request.status not in valid_statuses` check plus decoding
(`valid_statuses = ["PENDING", "PAID", "OVERDUE"]`). -/
def parseStatus (s : String) : Option PayStatus :=
  if s = "PENDING" then some PayStatus.PENDING
  else if s = "PAID" then some PayStatus.PAID
  else if s = "OVERDUE" then some PayStatus.OVERDUE
  else none

/-- `request.role not in ['admin', 'member']` check plus decoding. -/
def parseRole (s : String) : Option Role :=
  if s = "admin" then some Role.admin
  else if s = "member" then some Role.member
  else none

/-- `CreatePaymentRequest` of `payments.py`. -/
structure CreatePaymentRequest where
  userId : String
  amount : Int
  description : String
  paymentType : String
  dueDate : Option String
deriving DecidableEq, Repr

/-- `POST /payments/` (`payments.py:create_payment`): admin-only creation
of a single payment.  Inserts the row with status `PENDING` regardless of
the requested payment type, with no `paid_date`; the balance delta is
applied by `DB.create_payment`. -/
def create_payment (db : DB) (callerId : String) (req : CreatePaymentRequest)
    (now : String) : Except HErr (Payment × DB) :=
  match db.get_user_membership callerId with
  | none => Except.error ⟨403, "Admin access required"⟩
  | some mem =>
    if mem.role ≠ Role.admin then Except.error ⟨403, "Admin access required"⟩
    else
      let gid := mem.groupId
      match parseType req.paymentType with
      | none => Except.error ⟨400, "Invalid payment type"⟩
      | some pty =>
        match db.get_user_membership req.userId with
        | none => Except.error ⟨404, "User not in your group"⟩
        | some tmem =>
          if tmem.groupId ≠ gid then Except.error ⟨404, "User not in your group"⟩
          else
            let pdata : Payment :=
              { paymentId := freshId db
                groupId := gid
                userId := req.userId
                amount := req.amount
                description := req.description
                payType := pty
                status := PayStatus.PENDING
                dueDate := req.dueDate
                paidDate := none
                createdBy := callerId
                createdAt := now }
            let db1 := db.create_payment pdata
            match db1.get_payment pdata.paymentId with
            | some p => Except.ok (p, db1)
            | none => Except.error ⟨500, "payment lookup failed"⟩

/-- The shared shape of the `bulk-charge` / `bulk-credit` loops: walk the
requested user ids, silently skip ids without a membership in the group,
and for each member id create one payment (built by `mk` from the current
database state, so that the fresh id advances) and collect the re-read
row.  An exception inside the loop would abort the whole request. -/
def bulk_create_loop (db : DB) (gid : Nat) (mk : DB → String → Payment) :
    List String → Except HErr (List Payment × DB)
  | [] => Except.ok ([], db)
  | uid :: rest =>
    match db.get_user_membership uid with
    | none => bulk_create_loop db gid mk rest
    | some tmem =>
      if tmem.groupId ≠ gid then bulk_create_loop db gid mk rest
      else
        let pdata := mk db uid
        let db1 := db.create_payment pdata
        match db1.get_payment pdata.paymentId with
        | none => Except.error ⟨500, "payment lookup failed"⟩
        | some p =>
          match bulk_create_loop db1 gid mk rest with
          | Except.ok (ps, dbF) => Except.ok (p :: ps, dbF)
          | Except.error e => Except.error e

/-- The payment dict built inside `create_bulk_charge`: a `PENDING`
charge with the request due date. -/
def bulkChargeRow (gid : Nat) (amount : Int) (desc : String) (dueDate : Option String)
    (callerId now : String) (db : DB) (uid : String) : Payment :=
  { paymentId := freshId db
    groupId := gid
    userId := uid
    amount := amount
    description := desc
    payType := PaymentType.CHARGE
    status := PayStatus.PENDING
    dueDate := dueDate
    paidDate := none
    createdBy := callerId
    createdAt := now }

/-- The payment dict built inside `create_bulk_credit`: a credit created
directly as `PAID` with `paid_date` set to today. -/
def bulkCreditRow (gid : Nat) (amount : Int) (desc : String)
    (callerId now : String) (db : DB) (uid : String) : Payment :=
  { paymentId := freshId db
    groupId := gid
    userId := uid
    amount := amount
    description := desc
    payType := PaymentType.CREDIT
    status := PayStatus.PAID
    dueDate := none
    paidDate := some now
    createdBy := callerId
    createdAt := now }

/-- `POST /payments/bulk-charge` (`payments.py:create_bulk_charge`). -/
def create_bulk_charge (db : DB) (callerId : String) (userIds : List String)
    (amount : Int) (desc : String) (dueDate : Option String) (now : String) :
    Except HErr (List Payment × DB) :=
  match db.get_user_membership callerId with
  | none => Except.error ⟨403, "Admin access required"⟩
  | some mem =>
    if mem.role ≠ Role.admin then Except.error ⟨403, "Admin access required"⟩
    else if userIds = [] then Except.error ⟨400, "No users selected"⟩
    else bulk_create_loop db mem.groupId
      (bulkChargeRow mem.groupId amount desc dueDate callerId now) userIds

/-- `POST /payments/bulk-credit` (`payments.py:create_bulk_credit`). -/
def create_bulk_credit (db : DB) (callerId : String) (userIds : List String)
    (amount : Int) (desc : String) (now : String) :
    Except HErr (List Payment × DB) :=
  match db.get_user_membership callerId with
  | none => Except.error ⟨403, "Admin access required"⟩
  | some mem =>
    if mem.role ≠ Role.admin then Except.error ⟨403, "Admin access required"⟩
    else if userIds = [] then Except.error ⟨400, "No users selected"⟩
    else bulk_create_loop db mem.groupId
      (bulkCreditRow mem.groupId amount desc callerId now) userIds

/-- `PUT /payments/{payment_id}/status` (`payments.py:update_payment_status`).
Permission: admin, or the owner marking their own payment `PAID`.  The
requested status string is validated against the three enum values.  A
balance adjustment is applied only for CHARGE rows on the transitions
`PENDING → PAID` (−amount) and `PAID → PENDING` (+amount); every other
change, `OVERDUE → PAID` included, leaves the balance alone. -/
def update_payment_status (db : DB) (callerId : String) (pid : String)
    (reqStatus : String) (today : String) : Except HErr (Payment × DB) :=
  match db.get_user_membership callerId with
  | none => Except.error ⟨404, "User not in any group"⟩
  | some mem =>
    let gid := mem.groupId
    let isAdmin := mem.role = Role.admin
    match db.get_payment pid with
    | none => Except.error ⟨404, "Payment not found"⟩
    | some payment =>
      if payment.groupId ≠ gid then Except.error ⟨403, "Access denied"⟩
      else
        let isOwnPayment := payment.userId = callerId
        let isMarkingPaid := reqStatus = "PAID"
        if ¬isAdmin ∧ ¬(isOwnPayment ∧ isMarkingPaid) then
          Except.error ⟨403, "Permission denied"⟩
        else
          match parseStatus reqStatus with
          | none => Except.error ⟨400, "Invalid status"⟩
          | some newStatus =>
            let oldStatus := payment.status
            let upd : PaymentUpdate :=
              { status := newStatus
                paidDate :=
                  if newStatus = PayStatus.PAID then some (some today)
                  else if newStatus = PayStatus.PENDING ∧ payment.paidDate ≠ none then
                    some none
                  else none }
            let db1 := db.update_payment pid upd
            let db2 :=
              if payment.payType = PaymentType.CHARGE ∧ oldStatus ≠ newStatus then
                if oldStatus = PayStatus.PENDING ∧ newStatus = PayStatus.PAID then
                  db1.update_member_balance payment.userId gid (-payment.amount)
                else if oldStatus = PayStatus.PAID ∧ newStatus = PayStatus.PENDING then
                  db1.update_member_balance payment.userId gid payment.amount
                else db1
              else db1
            match db2.get_payment pid with
            | some p => Except.ok (p, db2)
            | none => Except.error ⟨500, "payment lookup failed"⟩

/-- `DELETE /payments/{payment_id}` (`payments.py:delete_payment`):
admin-only; 404 when absent; cross-group access denied; then
`DB.delete_payment` removes the row and reverses the balance. -/
def delete_payment (db : DB) (callerId : String) (pid : String) : Except HErr DB :=
  match db.get_user_membership callerId with
  | none => Except.error ⟨403, "Admin access required"⟩
  | some mem =>
    if mem.role ≠ Role.admin then Except.error ⟨403, "Admin access required"⟩
    else
      match db.get_payment pid with
      | none => Except.error ⟨404, "Payment not found"⟩
      | some payment =>
        if payment.groupId ≠ mem.groupId then Except.error ⟨403, "Access denied"⟩
        else Except.ok (db.delete_payment pid)

/-- The statistics triple of `GET /payments/statistics`. -/
structure PaymentStatistics where
  totalMoneyOwed : Int
  totalMoneyCollected : Int
  totalPaymentsCount : Nat
deriving DecidableEq, Repr

/-- One iteration of the `get_payment_statistics` loop: only CHARGE rows
feed the owed/collected sums. -/
def statsStep (acc : Int × Int) (p : Payment) : Int × Int :=
  if p.payType = PaymentType.CHARGE then
    if p.status = PayStatus.PENDING ∨ p.status = PayStatus.OVERDUE then
      (acc.1 + p.amount, acc.2)
    else if p.status = PayStatus.PAID then (acc.1, acc.2 + p.amount)
    else acc
  else acc

/-- The accumulation loop of `get_payment_statistics`. -/
def statsFold (ps : List Payment) : Int × Int :=
  ps.foldl statsStep (0, 0)

/-- The aggregation `get_payment_statistics` computes for a group. -/
def groupStatistics (db : DB) (gid : Nat) : PaymentStatistics :=
  let allPayments := db.get_group_payments gid none none
  let s := statsFold allPayments
  { totalMoneyOwed := s.1
    totalMoneyCollected := s.2
    totalPaymentsCount := allPayments.length }

/-- `GET /payments/statistics` (`payments.py:get_payment_statistics`),
admin only. -/
def get_payment_statistics (db : DB) (callerId : String) :
    Except HErr PaymentStatistics :=
  match db.get_user_membership callerId with
  | none => Except.error ⟨403, "Admin access required"⟩
  | some mem =>
    if mem.role ≠ Role.admin then Except.error ⟨403, "Admin access required"⟩
    else Except.ok (groupStatistics db mem.groupId)

/-- `PUT /members/{member_id}/role` (`members.py:update_member_role`):
admin-only; role string validated; target must be in the group; a
self-demotion is rejected when the caller is the only admin. -/
def update_member_role (db : DB) (callerId memberId : String) (reqRole : String) :
    Except HErr DB :=
  match db.get_user_membership callerId with
  | none => Except.error ⟨403, "Admin access required"⟩
  | some mem =>
    if mem.role ≠ Role.admin then Except.error ⟨403, "Admin access required"⟩
    else
      let gid := mem.groupId
      match parseRole reqRole with
      | none => Except.error ⟨400, "Invalid role"⟩
      | some newRole =>
        match db.get_user_membership memberId with
        | none => Except.error ⟨404, "Member not in your group"⟩
        | some tmem =>
          if tmem.groupId ≠ gid then Except.error ⟨404, "Member not in your group"⟩
          else if callerId = memberId ∧ newRole = Role.member ∧
              db.get_group_admin_count gid ≤ 1 then
            Except.error ⟨400, "Cannot demote yourself - group must have at least one admin"⟩
          else Except.ok (db.update_member_role gid memberId newRole)

/-- `DELETE /members/{member_id}` (`members.py:remove_member`): admin or
self; target must be in the group; removing the last admin is rejected. -/
def remove_member (db : DB) (callerId memberId : String) : Except HErr DB :=
  match db.get_user_membership callerId with
  | none => Except.error ⟨404, "User not in any group"⟩
  | some mem =>
    let gid := mem.groupId
    let isAdmin := mem.role = Role.admin
    let isSelf := callerId = memberId
    if ¬isAdmin ∧ ¬isSelf then Except.error ⟨403, "Permission denied"⟩
    else
      match db.get_user_membership memberId with
      | none => Except.error ⟨404, "Member not in your group"⟩
      | some tmem =>
        if tmem.groupId ≠ gid then Except.error ⟨404, "Member not in your group"⟩
        else if tmem.role = Role.admin ∧ db.get_group_admin_count gid ≤ 1 then
          Except.error ⟨400, "Cannot remove the last admin from the group"⟩
        else Except.ok (db.remove_group_member gid memberId)

/-! ## Specification-side definitions

These formalise the quantities the specification talks about, to be
compared with what the code computes. -/

/-- Invariant I1 recompute-from-scratch: the sum of the amounts of the
member's CHARGE payments with status PENDING or OVERDUE minus the sum of
the amounts of the member's CREDIT payments. -/
def recompute_balance (db : DB) (gid : Nat) (uid : String) : Int :=
  ((db.payments.filter (fun p => p.groupId == gid && p.userId == uid
      && p.payType == PaymentType.CHARGE
      && (p.status == PayStatus.PENDING || p.status == PayStatus.OVERDUE))).map
      Payment.amount).sum
  - ((db.payments.filter (fun p => p.groupId == gid && p.userId == uid
      && p.payType == PaymentType.CREDIT)).map Payment.amount).sum

/-- Invariant I1 holds of a state when every membership row's stored
balance equals the recomputed one. -/
def LedgerConsistent (db : DB) : Prop :=
  ∀ m ∈ db.members, m.balance = recompute_balance db m.groupId m.userId

/-- Spec `owed`: sum of amounts of the CHARGE payments of the group with
status PENDING or OVERDUE. -/
def owedSpec (ps : List Payment) : Int :=
  ((ps.filter (fun p => p.payType == PaymentType.CHARGE
      && (p.status == PayStatus.PENDING || p.status == PayStatus.OVERDUE))).map
      Payment.amount).sum

/-- Spec `collected`: sum of amounts of the CHARGE payments of the group
with status PAID. -/
def collectedSpec (ps : List Payment) : Int :=
  ((ps.filter (fun p => p.payType == PaymentType.CHARGE
      && p.status == PayStatus.PAID)).map Payment.amount).sum

/-- Invariant I2 (admin floor): every group with at least one membership
row has at least one admin row. -/
def AdminFloor (db : DB) : Prop :=
  ∀ g : Nat, (∃ m ∈ db.members, m.groupId = g) →
    ∃ m ∈ db.members, m.groupId = g ∧ m.role = Role.admin

/-- The `(group_id, user_id)` primary key of `group_members`: no two rows
share a key. -/
def DB.MembersWF (db : DB) : Prop :=
  db.members.Pairwise (fun a b => ¬(a.groupId = b.groupId ∧ a.userId = b.userId))

/-! ## Sequencing helpers for concrete scenarios -/

/-- Feed the database produced by a payment-returning call into
`update_payment_status`. -/
def thenUpdateStatus (r : Except HErr (Payment × DB)) (callerId pid st today : String) :
    Except HErr (Payment × DB) :=
  match r with
  | Except.ok x => update_payment_status x.2 callerId pid st today
  | Except.error e => Except.error e

/-- Feed the database produced by a payment-returning call into
`delete_payment`. -/
def thenDeletePayment (r : Except HErr (Payment × DB)) (callerId pid : String) :
    Except HErr DB :=
  match r with
  | Except.ok x => delete_payment x.2 callerId pid
  | Except.error e => Except.error e

/-- A two-member group: `alice` is the only admin, `bob` an ordinary
member, both with balance 0 and no payments yet. -/
def exDB : DB :=
  { members := [⟨1, "alice", Role.admin, 0⟩, ⟨1, "bob", Role.member, 0⟩]
    payments := []
    nextId := 0 }

/-- Admin `alice` charges `bob` 50. -/
def chargeReq : CreatePaymentRequest := ⟨"bob", 50, "dues", "CHARGE", none⟩

/-- State after the charge is recorded (payment id `p0`, status PENDING,
bob owes 50). -/
def chargeCreated : Except HErr (Payment × DB) :=
  create_payment exDB "alice" chargeReq "t0"

/-- ... then the admin marks the charge OVERDUE. -/
def chargeOverdue : Except HErr (Payment × DB) :=
  thenUpdateStatus chargeCreated "alice" "p0" "OVERDUE" "t1"

/-- ... then the admin marks the overdue charge PAID. -/
def chargeOverduePaid : Except HErr (Payment × DB) :=
  thenUpdateStatus chargeOverdue "alice" "p0" "PAID" "t2"

/-- Alternative: the pending charge is marked PAID directly. -/
def chargePaid : Except HErr (Payment × DB) :=
  thenUpdateStatus chargeCreated "alice" "p0" "PAID" "t1"

/-- ... and the settled (PAID) charge is then deleted by the admin. -/
def chargePaidDeleted : Except HErr DB :=
  thenDeletePayment chargePaid "alice" "p0"

/-- ... or the settled (PAID) charge is set back to OVERDUE by the admin. -/
def chargePaidToOverdue : Except HErr (Payment × DB) :=
  thenUpdateStatus chargePaid "alice" "p0" "OVERDUE" "t2"

/-- Admin `alice` records a single CREDIT of 30 for `bob` through the
single-payment endpoint. -/
def creditCreated : Except HErr (Payment × DB) :=
  create_payment exDB "alice" ⟨"bob", 30, "refund", "CREDIT", none⟩ "t0"

/-- The same credit recorded through the bulk-credit endpoint. -/
def bulkCreditCreated : Except HErr (List Payment × DB) :=
  create_bulk_credit exDB "alice" ["bob"] 30 "refund" "t0"

/-- C1.  Ledger consistency invariant I1 fails on the code: in the
sequence charge-50 → mark OVERDUE → mark PAID (all legal per the
transition table), every call succeeds, yet afterwards the stored balance
of the member is 50 while the I1 recompute-from-scratch value is 0 — the
OVERDUE → PAID transition applies no balance delta.  The first conjunct
shows the invariant still held one step earlier. -/
theorem ledger_I1_broken_by_overdue_paid :
    chargeOverdue.map (fun x =>
      (x.2.get_user_balance "bob" 1, recompute_balance x.2 1 "bob")) =
      Except.ok (50, 50) ∧
    chargeOverduePaid.map (fun x =>
      (x.2.get_user_balance "bob" 1, recompute_balance x.2 1 "bob")) =
      Except.ok (50, 0) ∧
    (50 : Int) ≠ 0 := by
  refine ⟨rfl, rfl, by decide⟩

/-- C2.  Deleting a CHARGE that is already PAID does not apply the claimed
delta 0: `LocalDBService.delete_payment` reverses by −amount
unconditionally.  Charge 50 → mark PAID leaves bob at balance 0 with a
PAID charge; deleting that payment drives the stored balance to −50
although the row contributed nothing to it (recompute is 0 throughout). -/
theorem delete_payment_double_reverses_paid_charge :
    chargePaid.map (fun x =>
      (x.1.payType, x.1.status, x.2.get_user_balance "bob" 1)) =
      Except.ok (PaymentType.CHARGE, PayStatus.PAID, 0) ∧
    chargePaidDeleted.map (fun d =>
      (d.get_user_balance "bob" 1, recompute_balance d 1 "bob")) =
      Except.ok (-50, 0) ∧
    ((-50 : Int)) ≠ 0 := by
  refine ⟨rfl, rfl, by decide⟩

/-- C3.  A status update of an OVERDUE charge to PAID applies no balance
delta in the code (`update_payment_status` only adjusts on
PENDING → PAID and PAID → PENDING): before the update bob's stored
balance is 50 with the charge OVERDUE; after marking it PAID the stored
balance is still 50, not the claimed 50 − amount = 0. -/
theorem overdue_to_paid_leaves_balance :
    chargeOverdue.map (fun x =>
      (x.1.payType, x.1.status, x.2.get_user_balance "bob" 1)) =
      Except.ok (PaymentType.CHARGE, PayStatus.OVERDUE, 50) ∧
    chargeOverduePaid.map (fun x =>
      (x.1.status, x.2.get_user_balance "bob" 1)) =
      Except.ok (PayStatus.PAID, 50) ∧
    (50 : Int) ≠ 0 := by
  refine ⟨rfl, rfl, by decide⟩

/-- C4.  The single-payment endpoint creates a CREDIT with status
PENDING and no `paid_date` (the handler hardcodes `"status": "PENDING"`),
not PAID with `paid_date = now` as claimed; only the bulk-credit endpoint
creates credits as PAID.  The balance deltas themselves match the claim:
−30 for the credit, +50 for a charge, and a CHARGE is created PENDING. -/
theorem create_payment_credit_status_pending :
    creditCreated.map (fun x => (x.1.payType, x.1.status, x.1.paidDate)) =
      Except.ok (PaymentType.CREDIT, PayStatus.PENDING, none) ∧
    creditCreated.map (fun x => x.2.get_user_balance "bob" 1) =
      Except.ok (-30) ∧
    bulkCreditCreated.map (fun x => x.1.map (fun p => (p.status, p.paidDate))) =
      Except.ok [(PayStatus.PAID, some "t0")] ∧
    chargeCreated.map (fun x => (x.1.status, x.2.get_user_balance "bob" 1)) =
      Except.ok (PayStatus.PENDING, 50) := by
  refine ⟨rfl, rfl, rfl, rfl⟩

/-- C5 counterexample.  The claim says a requested transition outside the
table of §4.2 (such as PAID → OVERDUE) is rejected with an InvalidState
error leaving the payment unchanged.  In the code the admin's request to
set a PAID charge to OVERDUE succeeds and the stored status becomes
OVERDUE: no transition table is enforced. -/
theorem paid_to_overdue_accepted_cex :
    chargePaid.map (fun x => x.1.status) = Except.ok PayStatus.PAID ∧
    chargePaidToOverdue.map (fun x => (x.1.payType, x.1.status)) =
      Except.ok (PaymentType.CHARGE, PayStatus.OVERDUE) := by
  refine ⟨rfl, rfl⟩

/-! ## General lemmas about the storage operations -/

/-- `find?` commutes with mapping a function that does not change the
tested predicate. -/
theorem find?_map_of_pred_comm {α : Type} (f : α → α) (q : α → Bool)
    (h : ∀ a, q (f a) = q a) :
    ∀ l : List α, (l.map f).find? q = (l.find? q).map f := by
  intro l
  induction l with
  | nil => rfl
  | cons a t ih =>
    simp only [List.map_cons, List.find?, h a]
    cases hq : q a
    · simpa using ih
    · rfl

/-- A balance update leaves the payments table untouched. -/
theorem get_payment_update_member_balance (db : DB) (u : String) (g : Nat)
    (d : Int) (pid : String) :
    (db.update_member_balance u g d).get_payment pid = db.get_payment pid := rfl

/-- The row transformer of `DB.update_payment` keeps the payment id. -/
theorem update_payment_row_id (pid : String) (u : PaymentUpdate) (p : Payment) :
    (if p.paymentId == pid then
      { p with status := u.status,
               paidDate := match u.paidDate with | some d => d | none => p.paidDate }
     else p).paymentId = p.paymentId := by
  split <;> rfl

/-- Reading back the row just updated by `DB.update_payment`. -/
theorem get_payment_update_payment (db : DB) (pid : String) (u : PaymentUpdate) :
    (db.update_payment pid u).get_payment pid =
      (db.get_payment pid).map (fun p =>
        if p.paymentId == pid then
          { p with status := u.status,
                   paidDate := match u.paidDate with | some d => d | none => p.paidDate }
        else p) := by
  unfold DB.update_payment DB.get_payment
  exact find?_map_of_pred_comm _ _ (fun p => by rw [update_payment_row_id]) _

/-- The row transformer of `DB.update_member_balance` keeps the key and
role of each membership row. -/
theorem update_member_balance_row_key (u : String) (g : Nat) (d : Int) (m : Member) :
    (if m.userId == u && m.groupId == g then { m with balance := m.balance + d }
     else m).userId = m.userId ∧
    (if m.userId == u && m.groupId == g then { m with balance := m.balance + d }
     else m).groupId = m.groupId ∧
    (if m.userId == u && m.groupId == g then { m with balance := m.balance + d }
     else m).role = m.role := by
  refine ⟨?_, ?_, ?_⟩ <;> split <;> rfl

/-- Reading a membership back after a balance update: the row is the same
up to its balance. -/
theorem get_user_membership_update_member_balance (db : DB) (u : String)
    (g : Nat) (d : Int) (uid : String) :
    (db.update_member_balance u g d).get_user_membership uid =
      (db.get_user_membership uid).map (fun m =>
        if m.userId == u && m.groupId == g then { m with balance := m.balance + d }
        else m) := by
  unfold DB.update_member_balance DB.get_user_membership
  exact find?_map_of_pred_comm _ _
    (fun m => by rw [(update_member_balance_row_key u g d m).1]) _

/-- Whether `uid` has a membership row in group `gid` (the bulk-endpoint
skip test). -/
def memberOfGroup (db : DB) (gid : Nat) (uid : String) : Bool :=
  match db.get_user_membership uid with
  | some m => m.groupId == gid
  | none => false

/-- Creating a payment does not change who is a member of which group. -/
theorem memberOfGroup_create_payment (db : DB) (p : Payment) (gid : Nat)
    (uid : String) :
    memberOfGroup (db.create_payment p) gid uid = memberOfGroup db gid uid := by
  have frame : ∀ (db1 : DB) (u : String) (g : Nat) (d : Int),
      db1.get_user_membership uid = db.get_user_membership uid →
      memberOfGroup (db1.update_member_balance u g d) gid uid =
        memberOfGroup db gid uid := by
    intro db1 u g d hsame
    unfold memberOfGroup
    rw [get_user_membership_update_member_balance, hsame]
    cases db.get_user_membership uid with
    | none => rfl
    | some m =>
      simp only [Option.map_some']
      rw [(update_member_balance_row_key u g d m).2.1]
  unfold DB.create_payment
  cases p.payType <;> exact frame _ _ _ _ rfl

/-- The success branch of `update_payment_status` re-reads the row; it is
`ok` whenever the row is present. -/
theorem isOk_of_get_payment_some (db3 : DB) (pid : String)
    (h : ∃ q, db3.get_payment pid = some q) :
    (match db3.get_payment pid with
      | some p1 => Except.ok (p1, db3)
      | none => Except.error (⟨500, "payment lookup failed"⟩ : HErr)).isOk = true := by
  obtain ⟨q, hq⟩ := h
  rw [hq]
  rfl

/-- C5 (amended).  `update_payment_status` rejects, with a 400
InvalidInput error issued before any write, exactly the requested status
values outside {PENDING, PAID, OVERDUE}; it enforces no transition table:
once the membership/payment/group/permission guards pass, a request for
any of the three valid statuses succeeds, whatever the current status and
even for CREDIT payments. -/
theorem update_payment_status_validation :
    (∀ (db : DB) (c pid s t : String) (mem : Member) (p : Payment),
      db.get_user_membership c = some mem → mem.role = Role.admin →
      db.get_payment pid = some p → p.groupId = mem.groupId →
      parseStatus s = none →
      update_payment_status db c pid s t = Except.error ⟨400, "Invalid status"⟩)
    ∧
    (∀ (db : DB) (c pid s t : String) (mem : Member) (p : Payment)
      (st : PayStatus),
      db.get_user_membership c = some mem → mem.role = Role.admin →
      db.get_payment pid = some p → p.groupId = mem.groupId →
      parseStatus s = some st →
      (update_payment_status db c pid s t).isOk = true) := by
  constructor
  · intro db c pid s t mem p h1 h2 h3 h4 h5
    unfold update_payment_status
    rw [h1]
    simp only [h2, h3, h4, h5]
    simp
  · intro db c pid s t mem p st h1 h2 h3 h4 h5
    unfold update_payment_status
    rw [h1]
    simp only [h2, h3, h4, h5]
    rw [if_neg (fun h => h rfl)]
    rw [if_neg (by simp)]
    apply isOk_of_get_payment_some
    split
    · split
      · rw [get_payment_update_member_balance, get_payment_update_payment, h3]
        exact ⟨_, rfl⟩
      · split
        · rw [get_payment_update_member_balance, get_payment_update_payment, h3]
          exact ⟨_, rfl⟩
        · rw [get_payment_update_payment, h3]
          exact ⟨_, rfl⟩
    · rw [get_payment_update_payment, h3]
      exact ⟨_, rfl⟩

/-- A settled (PAID) charge of 50 on `bob`, as stored after
`chargePaid`. -/
def paidChargeRow : Payment :=
  { paymentId := "p0"
    groupId := 1
    userId := "bob"
    amount := 50
    description := "dues"
    payType := PaymentType.CHARGE
    status := PayStatus.PAID
    dueDate := none
    paidDate := some "t1"
    createdBy := "alice"
    createdAt := "t0" }

/-- The two-member group after bob's charge was recorded and settled. -/
def exDBPaid : DB :=
  { members := [⟨1, "alice", Role.admin, 0⟩, ⟨1, "bob", Role.member, 0⟩]
    payments := [paidChargeRow]
    nextId := 1 }

/-- Witness for `update_payment_status_validation`: in the concrete
settled-charge state, the status string "BOGUS" is rejected with 400 and
the out-of-table request PAID → OVERDUE is accepted. -/
theorem update_payment_status_validation_witness :
    update_payment_status exDBPaid "alice" "p0" "BOGUS" "t2" =
      Except.error ⟨400, "Invalid status"⟩ ∧
    (update_payment_status exDBPaid "alice" "p0" "OVERDUE" "t2").isOk = true :=
  ⟨update_payment_status_validation.1 exDBPaid "alice" "p0" "BOGUS" "t2"
      ⟨1, "alice", Role.admin, 0⟩ paidChargeRow rfl rfl rfl rfl rfl,
   update_payment_status_validation.2 exDBPaid "alice" "p0" "OVERDUE" "t2"
      ⟨1, "alice", Role.admin, 0⟩ paidChargeRow PayStatus.OVERDUE rfl rfl rfl rfl rfl⟩

/-- C7.  Permission matrix: a caller with a non-admin membership is
rejected with 403 by `create_payment`, `delete_payment` and
`update_member_role` whatever the rest of the input; their
`update_payment_status` request passes the permission gate only when the
payment is their own and the requested status is "PAID" (any other
request on an existing payment yields a 403, cross-group payments
included), and with own payment + "PAID" the call succeeds. -/
theorem permission_matrix :
    (∀ (db : DB) (c : String) (mem : Member) (req : CreatePaymentRequest) (t : String),
      db.get_user_membership c = some mem → mem.role ≠ Role.admin →
      create_payment db c req t = Except.error ⟨403, "Admin access required"⟩)
    ∧
    (∀ (db : DB) (c pid : String) (mem : Member),
      db.get_user_membership c = some mem → mem.role ≠ Role.admin →
      delete_payment db c pid = Except.error ⟨403, "Admin access required"⟩)
    ∧
    (∀ (db : DB) (c mid r : String) (mem : Member),
      db.get_user_membership c = some mem → mem.role ≠ Role.admin →
      update_member_role db c mid r = Except.error ⟨403, "Admin access required"⟩)
    ∧
    (∀ (db : DB) (c pid s t : String) (mem : Member) (p : Payment),
      db.get_user_membership c = some mem → mem.role ≠ Role.admin →
      db.get_payment pid = some p → ¬(p.userId = c ∧ s = "PAID") →
      ∃ d, update_payment_status db c pid s t = Except.error ⟨403, d⟩)
    ∧
    (∀ (db : DB) (c pid t : String) (mem : Member) (p : Payment),
      db.get_user_membership c = some mem → mem.role ≠ Role.admin →
      db.get_payment pid = some p → p.groupId = mem.groupId →
      p.userId = c →
      (update_payment_status db c pid "PAID" t).isOk = true) := by
  refine ⟨?_, ?_, ?_, ?_, ?_⟩
  · intro db c mem req t h1 h2
    unfold create_payment
    rw [h1]
    simp [h2]
  · intro db c pid mem h1 h2
    unfold delete_payment
    rw [h1]
    simp [h2]
  · intro db c mid r mem h1 h2
    unfold update_member_role
    rw [h1]
    simp [h2]
  · intro db c pid s t mem p h1 h2 h3 h4
    unfold update_payment_status
    rw [h1]
    simp only [h3]
    by_cases hg : p.groupId = mem.groupId
    · refine ⟨"Permission denied", ?_⟩
      rw [if_neg (by simpa using hg)]
      rw [if_pos ⟨h2, h4⟩]
    · refine ⟨"Access denied", ?_⟩
      rw [if_pos (by simpa using hg)]
  · intro db c pid t mem p h1 h2 h3 h4 h5
    unfold update_payment_status
    rw [h1]
    simp only [h3]
    rw [if_neg (by simpa using h4)]
    rw [if_neg (by simp [h5])]
    have hp : parseStatus "PAID" = some PayStatus.PAID := rfl
    rw [hp]
    apply isOk_of_get_payment_some
    split
    · split
      · rw [get_payment_update_member_balance, get_payment_update_payment, h3]
        exact ⟨_, rfl⟩
      · split
        · rw [get_payment_update_member_balance, get_payment_update_payment, h3]
          exact ⟨_, rfl⟩
        · rw [get_payment_update_payment, h3]
          exact ⟨_, rfl⟩
    · rw [get_payment_update_payment, h3]
      exact ⟨_, rfl⟩

/-- Witness for `permission_matrix`: the non-admin `bob`, in the state
with his own settled charge `p0`, is rejected by the three admin-only
calls and by a non-PAID status request on his own payment, while marking
his own payment PAID goes through. -/
theorem permission_matrix_witness :
    create_payment exDBPaid "bob" chargeReq "t0" =
      Except.error ⟨403, "Admin access required"⟩ ∧
    delete_payment exDBPaid "bob" "p0" =
      Except.error ⟨403, "Admin access required"⟩ ∧
    update_member_role exDBPaid "bob" "alice" "member" =
      Except.error ⟨403, "Admin access required"⟩ ∧
    (∃ d, update_payment_status exDBPaid "bob" "p0" "OVERDUE" "t2" =
      Except.error ⟨403, d⟩) ∧
    (update_payment_status exDBPaid "bob" "p0" "PAID" "t2").isOk = true :=
  ⟨permission_matrix.1 exDBPaid "bob" ⟨1, "bob", Role.member, 0⟩ chargeReq "t0"
      rfl (by decide),
   permission_matrix.2.1 exDBPaid "bob" "p0" ⟨1, "bob", Role.member, 0⟩
      rfl (by decide),
   permission_matrix.2.2.1 exDBPaid "bob" "alice" "member"
      ⟨1, "bob", Role.member, 0⟩ rfl (by decide),
   permission_matrix.2.2.2.1 exDBPaid "bob" "p0" "OVERDUE" "t2"
      ⟨1, "bob", Role.member, 0⟩ paidChargeRow rfl (by decide) rfl (by decide),
   permission_matrix.2.2.2.2 exDBPaid "bob" "p0" "t2"
      ⟨1, "bob", Role.member, 0⟩ paidChargeRow rfl (by decide) rfl rfl rfl⟩

/-- Running the statistics loop from any accumulator adds the owed and
collected sums componentwise. -/
theorem statsFold_go (ps : List Payment) :
    ∀ a b : Int, ps.foldl statsStep (a, b) = (a + owedSpec ps, b + collectedSpec ps) := by
  induction ps with
  | nil => intro a b; simp [owedSpec, collectedSpec]
  | cons p ps ih =>
    intro a b
    rw [List.foldl_cons]
    cases hpt : p.payType <;> cases hst : p.status <;>
      simp [statsStep, owedSpec, collectedSpec, hpt, hst, List.filter_cons, ih] <;> ring_nf

/-- The statistics loop computes exactly the two specified filtered sums. -/
theorem statsFold_eq (ps : List Payment) :
    statsFold ps = (owedSpec ps, collectedSpec ps) := by
  have h := statsFold_go ps 0 0
  simpa [statsFold] using h

/-- C8.  For an admin caller, `get_payment_statistics` returns owed = Σ
amount of the group's CHARGE payments with status PENDING or OVERDUE,
collected = Σ amount of its CHARGE payments with status PAID, and count =
the total number of the group's payment rows; CREDIT rows are in neither
sum but are counted. -/
theorem statistics_spec (db : DB) (c : String) (mem : Member)
    (h1 : db.get_user_membership c = some mem) (h2 : mem.role = Role.admin) :
    get_payment_statistics db c =
      Except.ok
        { totalMoneyOwed := owedSpec (db.get_group_payments mem.groupId none none)
          totalMoneyCollected := collectedSpec (db.get_group_payments mem.groupId none none)
          totalPaymentsCount := (db.get_group_payments mem.groupId none none).length } := by
  unfold get_payment_statistics
  rw [h1]
  simp [h2, groupStatistics, statsFold_eq]

/-- A CREDIT of 30 on `bob`, settled. -/
def creditRow : Payment :=
  { paymentId := "p1"
    groupId := 1
    userId := "bob"
    amount := 30
    description := "refund"
    payType := PaymentType.CREDIT
    status := PayStatus.PAID
    dueDate := none
    paidDate := some "t1"
    createdBy := "alice"
    createdAt := "t1" }

/-- A further PENDING charge of 20 on `bob`. -/
def pendingChargeRow : Payment :=
  { paymentId := "p2"
    groupId := 1
    userId := "bob"
    amount := 20
    description := "gear"
    payType := PaymentType.CHARGE
    status := PayStatus.PENDING
    dueDate := none
    paidDate := none
    createdBy := "alice"
    createdAt := "t2" }

/-- A state with one PAID charge (50), one PENDING charge (20) and one
CREDIT (30). -/
def exDBStats : DB :=
  { members := [⟨1, "alice", Role.admin, 0⟩, ⟨1, "bob", Role.member, -10⟩]
    payments := [pendingChargeRow, creditRow, paidChargeRow]
    nextId := 3 }

/-- Witness for `statistics_spec`: owed 20 (the pending charge),
collected 50 (the paid charge), count 3 (the credit counted, summed
nowhere). -/
theorem statistics_spec_witness :
    get_payment_statistics exDBStats "alice" =
      Except.ok
        { totalMoneyOwed := 20, totalMoneyCollected := 50, totalPaymentsCount := 3 } := by
  have h := statistics_spec exDBStats "alice" ⟨1, "alice", Role.admin, 0⟩ rfl rfl
  rw [h]
  rfl

/-- Inserting a payment row prepends it (newest first). -/
theorem create_payment_payments (db : DB) (p : Payment) :
    (db.create_payment p).payments = p :: db.payments := by
  unfold DB.create_payment
  cases p.payType <;> rfl

/-- Reading a payment back right after inserting it. -/
theorem get_payment_create_payment (db : DB) (p : Payment) :
    (db.create_payment p).get_payment p.paymentId = some p := by
  unfold DB.get_payment
  rw [create_payment_payments]
  simp [List.find?]

/-- The bulk-creation loop never fails: it returns one payment per
requested id that is a member of the group (in request order, skipping
the others) and prepends exactly those rows to the payments table. -/
theorem bulk_create_loop_ok (gid : Nat) (mk : DB → String → Payment)
    (hmk : ∀ (d : DB) (u : String), (mk d u).userId = u) :
    ∀ (ids : List String) (db : DB),
      ∃ ps db2, bulk_create_loop db gid mk ids = Except.ok (ps, db2) ∧
        ps.map Payment.userId = ids.filter (fun u => memberOfGroup db gid u) ∧
        db2.payments = ps.reverse ++ db.payments := by
  intro ids
  induction ids with
  | nil => intro db; exact ⟨[], db, rfl, rfl, by simp⟩
  | cons uid rest ih =>
    intro db
    cases hm : db.get_user_membership uid with
    | none =>
      obtain ⟨ps, db2, h1, h2, h3⟩ := ih db
      refine ⟨ps, db2, ?_, ?_, h3⟩
      · unfold bulk_create_loop
        rw [hm, h1]
      · rw [h2, List.filter_cons]
        have : memberOfGroup db gid uid = false := by
          unfold memberOfGroup; rw [hm]
        simp [this]
    | some tmem =>
      by_cases hgid : tmem.groupId = gid
      · obtain ⟨ps, db2, h1, h2, h3⟩ := ih (db.create_payment (mk db uid))
        refine ⟨mk db uid :: ps, db2, ?_, ?_, ?_⟩
        · unfold bulk_create_loop
          simp only [hm]
          rw [if_neg (by simp [hgid])]
          simp only [get_payment_create_payment, h1]
        · rw [List.map_cons, hmk, h2, List.filter_cons]
          have hmem : memberOfGroup db gid uid = true := by
            unfold memberOfGroup; rw [hm]; simp [hgid]
          rw [List.filter_congr
            (fun x _ => memberOfGroup_create_payment db (mk db uid) gid x)]
          simp [hmem]
        · rw [h3, create_payment_payments]
          simp
      · obtain ⟨ps, db2, h1, h2, h3⟩ := ih db
        refine ⟨ps, db2, ?_, ?_, h3⟩
        · unfold bulk_create_loop
          simp only [hm]
          rw [if_pos (by simp [hgid])]
          exact h1
        · rw [h2, List.filter_cons]
          have : memberOfGroup db gid uid = false := by
            unfold memberOfGroup; rw [hm]; simp [hgid]
          simp [this]

/-- C9.  For an admin caller and a nonempty id list, `bulk-charge` and
`bulk-credit` succeed, create exactly one payment per id with a
membership in the group (silently skipping the rest, raising no error for
them), and return exactly the created payments. -/
theorem bulk_skip_semantics (db : DB) (c : String) (mem : Member)
    (ids : List String) (amount : Int) (desc : String) (due : Option String)
    (now : String)
    (h1 : db.get_user_membership c = some mem) (h2 : mem.role = Role.admin)
    (h3 : ids ≠ []) :
    (∃ ps db2,
      create_bulk_charge db c ids amount desc due now = Except.ok (ps, db2) ∧
      ps.map Payment.userId = ids.filter (fun u => memberOfGroup db mem.groupId u) ∧
      db2.payments = ps.reverse ++ db.payments) ∧
    (∃ ps db2,
      create_bulk_credit db c ids amount desc now = Except.ok (ps, db2) ∧
      ps.map Payment.userId = ids.filter (fun u => memberOfGroup db mem.groupId u) ∧
      db2.payments = ps.reverse ++ db.payments) := by
  constructor
  · obtain ⟨ps, db2, hA, hB, hC⟩ := bulk_create_loop_ok mem.groupId
      (bulkChargeRow mem.groupId amount desc due c now) (fun d u => rfl) ids db
    refine ⟨ps, db2, ?_, hB, hC⟩
    unfold create_bulk_charge
    simp only [h1]
    rw [if_neg (by simp [h2]), if_neg h3]
    exact hA
  · obtain ⟨ps, db2, hA, hB, hC⟩ := bulk_create_loop_ok mem.groupId
      (bulkCreditRow mem.groupId amount desc c now) (fun d u => rfl) ids db
    refine ⟨ps, db2, ?_, hB, hC⟩
    unfold create_bulk_credit
    simp only [h1]
    rw [if_neg (by simp [h2]), if_neg h3]
    exact hA

/-- Witness for `bulk_skip_semantics`: admin `alice` bulk-charges and
bulk-credits `bob` (a member) and `outsider` (not a member); each call
returns exactly the one payment for bob. -/
theorem bulk_skip_semantics_witness :
    (∃ ps db2,
      create_bulk_charge exDB "alice" ["bob", "outsider"] 10 "dues" none "t0" =
        Except.ok (ps, db2) ∧
      ps.map Payment.userId =
        ["bob", "outsider"].filter (fun u => memberOfGroup exDB 1 u) ∧
      db2.payments = ps.reverse ++ exDB.payments) ∧
    (∃ ps db2,
      create_bulk_credit exDB "alice" ["bob", "outsider"] 10 "dues" "t0" =
        Except.ok (ps, db2) ∧
      ps.map Payment.userId =
        ["bob", "outsider"].filter (fun u => memberOfGroup exDB 1 u) ∧
      db2.payments = ps.reverse ++ exDB.payments) :=
  bulk_skip_semantics exDB "alice" ⟨1, "alice", Role.admin, 0⟩
    ["bob", "outsider"] 10 "dues" none "t0" rfl rfl (by simp)

/-- Under the primary key of `group_members`, at most one row carries a
given `(user_id, group_id)` pair. -/
theorem filter_key_length_le_one (l : List Member) (uid : String) (gid : Nat)
    (hWF : l.Pairwise (fun a b => ¬(a.groupId = b.groupId ∧ a.userId = b.userId))) :
    (l.filter (fun m => m.userId == uid && m.groupId == gid)).length ≤ 1 := by
  have hsub : List.Pairwise (fun a b => ¬(a.groupId = b.groupId ∧ a.userId = b.userId))
      (l.filter (fun m => m.userId == uid && m.groupId == gid)) :=
    List.Pairwise.sublist (List.filter_sublist l) hWF
  cases hfk : l.filter (fun m => m.userId == uid && m.groupId == gid) with
  | nil => simp [hfk]
  | cons a tl =>
    cases tl with
    | nil => simp [hfk]
    | cons b t2 =>
      exfalso
      rw [hfk] at hsub
      have hr := (List.pairwise_cons.mp hsub).1 b (by simp)
      have ha : a ∈ l.filter (fun m => m.userId == uid && m.groupId == gid) := by
        rw [hfk]; simp
      have hb : b ∈ l.filter (fun m => m.userId == uid && m.groupId == gid) := by
        rw [hfk]; simp
      have ha2 := List.of_mem_filter ha
      have hb2 := List.of_mem_filter hb
      simp only [Bool.and_eq_true, beq_iff_eq] at ha2 hb2
      exact hr ⟨by rw [ha2.2, hb2.2], by rw [ha2.1, hb2.1]⟩

/-- Evaluation of `remove_member` when the target has no membership. -/
theorem remove_member_eq_none (db : DB) (c mid : String) (mem : Member)
    (hc : db.get_user_membership c = some mem)
    (hm : db.get_user_membership mid = none) :
    remove_member db c mid =
      if ¬mem.role = Role.admin ∧ ¬c = mid then
        Except.error ⟨403, "Permission denied"⟩
      else Except.error ⟨404, "Member not in your group"⟩ := by
  unfold remove_member
  rw [hc, hm]

/-- Evaluation of `remove_member` when the target has a membership. -/
theorem remove_member_eq_some (db : DB) (c mid : String) (mem tmem : Member)
    (hc : db.get_user_membership c = some mem)
    (hm : db.get_user_membership mid = some tmem) :
    remove_member db c mid =
      if ¬mem.role = Role.admin ∧ ¬c = mid then
        Except.error ⟨403, "Permission denied"⟩
      else if tmem.groupId ≠ mem.groupId then
        Except.error ⟨404, "Member not in your group"⟩
      else if tmem.role = Role.admin ∧ db.get_group_admin_count mem.groupId ≤ 1 then
        Except.error ⟨400, "Cannot remove the last admin from the group"⟩
      else Except.ok (db.remove_group_member mem.groupId mid) := by
  unfold remove_member
  rw [hc, hm]

/-- C10.  Frame property of member removal: a successful `remove_member`
deletes exactly the one `(group_id, user_id)` membership row and nothing
else — the payments table is untouched, so every group payment listing
(under any filter, in particular the admin's list) and the group
statistics are unchanged. -/
theorem remove_member_frame (db db2 : DB) (c mid : String) (mem : Member)
    (hWF : db.MembersWF)
    (hc : db.get_user_membership c = some mem)
    (hok : remove_member db c mid = Except.ok db2) :
    db2.payments = db.payments ∧
    db2.members = db.members.filter
      (fun m => !(m.userId == mid && m.groupId == mem.groupId)) ∧
    db2.members.length + 1 = db.members.length ∧
    (∀ (g : Nat) (uF : Option String) (sF : Option PayStatus),
      db2.get_group_payments g uF sF = db.get_group_payments g uF sF) ∧
    (∀ g : Nat, groupStatistics db2 g = groupStatistics db g) := by
  cases hm : db.get_user_membership mid with
  | none =>
    rw [remove_member_eq_none db c mid mem hc hm] at hok
    split at hok <;> simp at hok
  | some tmem =>
    rw [remove_member_eq_some db c mid mem tmem hc hm] at hok
    by_cases hperm : ¬mem.role = Role.admin ∧ ¬c = mid
    · rw [if_pos hperm] at hok; exact absurd hok (by simp)
    · rw [if_neg hperm] at hok
      by_cases hgid : tmem.groupId ≠ mem.groupId
      · rw [if_pos hgid] at hok; exact absurd hok (by simp)
      · rw [if_neg hgid] at hok
        by_cases hguard : tmem.role = Role.admin ∧
            db.get_group_admin_count mem.groupId ≤ 1
        · rw [if_pos hguard] at hok; exact absurd hok (by simp)
        · rw [if_neg hguard] at hok
          have hdb2 : db2 = db.remove_group_member mem.groupId mid := by
            injection hok with h
            exact h.symm
          subst hdb2
          refine ⟨rfl, rfl, ?_, fun g uF sF => rfl, fun g => rfl⟩
          unfold DB.get_user_membership at hm
          have hmem1 : tmem ∈ db.members := List.mem_of_find?_eq_some hm
          have hid : tmem.userId = mid := by
            have := List.find?_some hm
            simpa using this
          have hgid2 : tmem.groupId = mem.groupId := not_not.mp hgid
          have hin : tmem ∈ db.members.filter
              (fun m => m.userId == mid && m.groupId == mem.groupId) :=
            List.mem_filter.mpr ⟨hmem1, by simp [hid, hgid2]⟩
          have h1le : 0 < (db.members.filter
              (fun m => m.userId == mid && m.groupId == mem.groupId)).length :=
            List.length_pos.mpr (List.ne_nil_of_mem hin)
          have hle1 := filter_key_length_le_one db.members mid mem.groupId hWF
          have hlen := db.members.length_eq_length_filter_add
            (fun m => m.userId == mid && m.groupId == mem.groupId)
          show (db.members.filter
            (fun m => !(m.userId == mid && m.groupId == mem.groupId))).length + 1 =
            db.members.length
          omega

/-- The state left by removing `bob` from `exDBStats`: his membership row
is gone, his three payment rows stay. -/
def exDBStatsNoBob : DB :=
  { members := [⟨1, "alice", Role.admin, 0⟩]
    payments := [pendingChargeRow, creditRow, paidChargeRow]
    nextId := 3 }

/-- Witness for `remove_member_frame`: admin `alice` removes `bob` from
the three-payment state; exactly bob's row disappears and payments and
statistics stand. -/
theorem remove_member_frame_witness :
    exDBStatsNoBob.payments = exDBStats.payments ∧
    exDBStatsNoBob.members = exDBStats.members.filter
      (fun m => !(m.userId == "bob" && m.groupId == 1)) ∧
    exDBStatsNoBob.members.length + 1 = exDBStats.members.length ∧
    (∀ (g : Nat) (uF : Option String) (sF : Option PayStatus),
      exDBStatsNoBob.get_group_payments g uF sF = exDBStats.get_group_payments g uF sF) ∧
    (∀ g : Nat, groupStatistics exDBStatsNoBob g = groupStatistics exDBStats g) :=
  remove_member_frame exDBStats exDBStatsNoBob "alice" "bob"
    ⟨1, "alice", Role.admin, 0⟩ (by unfold DB.MembersWF exDBStats; simp) rfl rfl

/-- Under the primary key, two membership rows agreeing on group and user
are the same row. -/
theorem key_unique (l : List Member)
    (hWF : l.Pairwise (fun a b => ¬(a.groupId = b.groupId ∧ a.userId = b.userId)))
    {a b : Member} (ha : a ∈ l) (hb : b ∈ l)
    (h1 : a.groupId = b.groupId) (h2 : a.userId = b.userId) : a = b := by
  by_cases heq : a = b
  · exact heq
  · have hsymm : Symmetric (fun a b : Member =>
        ¬(a.groupId = b.groupId ∧ a.userId = b.userId)) := by
      intro x y h hxy
      exact h ⟨hxy.1.symm, hxy.2.symm⟩
    exact absurd ⟨h1, h2⟩ (List.Pairwise.forall hsymm hWF ha hb heq)

/-- A group with at least two admin rows has an admin row whose user is
not `x` (the two rows differ in user id by the primary key). -/
theorem exists_other_admin (l : List Member) (gid : Nat) (x : String)
    (hWF : l.Pairwise (fun a b => ¬(a.groupId = b.groupId ∧ a.userId = b.userId)))
    (h2 : 2 ≤ (l.filter (fun m => m.groupId == gid && m.role == Role.admin)).length) :
    ∃ m ∈ l, m.groupId = gid ∧ m.role = Role.admin ∧ m.userId ≠ x := by
  have hsub : List.Pairwise (fun a b => ¬(a.groupId = b.groupId ∧ a.userId = b.userId))
      (l.filter (fun m => m.groupId == gid && m.role == Role.admin)) :=
    List.Pairwise.sublist (List.filter_sublist l) hWF
  cases hfk : l.filter (fun m => m.groupId == gid && m.role == Role.admin) with
  | nil => rw [hfk] at h2; simp at h2
  | cons a tl =>
    cases tl with
    | nil => rw [hfk] at h2; simp at h2
    | cons b t2 =>
      rw [hfk] at hsub
      have hr := (List.pairwise_cons.mp hsub).1 b (by simp)
      have ha : a ∈ l.filter (fun m => m.groupId == gid && m.role == Role.admin) := by
        rw [hfk]; simp
      have hb : b ∈ l.filter (fun m => m.groupId == gid && m.role == Role.admin) := by
        rw [hfk]; simp
      have hal := List.mem_of_mem_filter ha
      have hbl := List.mem_of_mem_filter hb
      have ha2 := List.of_mem_filter ha
      have hb2 := List.of_mem_filter hb
      simp only [Bool.and_eq_true, beq_iff_eq] at ha2 hb2
      have hne : a.userId ≠ b.userId := by
        intro hu
        exact hr ⟨by rw [ha2.1, hb2.1], hu⟩
      by_cases hax : a.userId = x
      · exact ⟨b, hbl, hb2.1, hb2.2, by rw [← hax]; exact fun h => hne h.symm⟩
      · exact ⟨a, hal, ha2.1, ha2.2, hax⟩

/-- Evaluation of `update_member_role` when caller, role string and
target all resolve. -/
theorem update_member_role_eq_some (db : DB) (c mid r : String)
    (mem tmem : Member) (nr : Role)
    (hc : db.get_user_membership c = some mem)
    (hr : parseRole r = some nr)
    (hm : db.get_user_membership mid = some tmem) :
    update_member_role db c mid r =
      if mem.role ≠ Role.admin then Except.error ⟨403, "Admin access required"⟩
      else if tmem.groupId ≠ mem.groupId then
        Except.error ⟨404, "Member not in your group"⟩
      else if c = mid ∧ nr = Role.member ∧
          db.get_group_admin_count mem.groupId ≤ 1 then
        Except.error ⟨400, "Cannot demote yourself - group must have at least one admin"⟩
      else Except.ok (db.update_member_role mem.groupId mid nr) := by
  unfold update_member_role
  rw [hc, hr, hm]

/-- The row transformer of `DB.update_member_role` keeps the group id. -/
theorem role_row_groupId (gid : Nat) (mid : String) (nr : Role) (m : Member) :
    (if m.groupId == gid && m.userId == mid then { m with role := nr } else m).groupId
      = m.groupId := by
  split <;> rfl

/-- A row that is not the addressed `(group_id, user_id)` is untouched by
the role update. -/
theorem role_row_of_not_key (gid : Nat) (mid : String) (nr : Role) (m : Member)
    (h : ¬(m.groupId = gid ∧ m.userId = mid)) :
    (if m.groupId == gid && m.userId == mid then { m with role := nr } else m) = m := by
  rw [if_neg]
  simpa using h

/-- A successful `update_member_role` keeps invariant I2: the caller is
an admin of the group and survives any demotion of another member, a
promotion can only add admins, and the guarded self-demotion leaves the
second admin in place. -/
theorem update_member_role_preserves_admin_floor (db db2 : DB) (c mid r : String)
    (hWF : db.MembersWF) (hAF : AdminFloor db)
    (hok : update_member_role db c mid r = Except.ok db2) :
    AdminFloor db2 := by
  cases hc : db.get_user_membership c with
  | none =>
    unfold update_member_role at hok
    rw [hc] at hok
    simp at hok
  | some mem =>
    cases hr : parseRole r with
    | none =>
      unfold update_member_role at hok
      rw [hc, hr] at hok
      split at hok <;> (try split at hok) <;> simp at hok
    | some nr =>
      cases hm : db.get_user_membership mid with
      | none =>
        unfold update_member_role at hok
        rw [hc, hr, hm] at hok
        split at hok <;> (try split at hok) <;> simp at hok
      | some tmem =>
        rw [update_member_role_eq_some db c mid r mem tmem nr hc hr hm] at hok
        by_cases h1 : mem.role ≠ Role.admin
        · rw [if_pos h1] at hok; exact absurd hok (by simp)
        · rw [if_neg h1] at hok
          by_cases h2 : tmem.groupId ≠ mem.groupId
          · rw [if_pos h2] at hok; exact absurd hok (by simp)
          · rw [if_neg h2] at hok
            by_cases h3 : c = mid ∧ nr = Role.member ∧
                db.get_group_admin_count mem.groupId ≤ 1
            · rw [if_pos h3] at hok; exact absurd hok (by simp)
            · rw [if_neg h3] at hok
              have hdb2 : db2 = db.update_member_role mem.groupId mid nr := by
                injection hok with h
                exact h.symm
              subst hdb2
              have hadm : mem.role = Role.admin := not_not.mp h1
              unfold DB.get_user_membership at hc
              have hcmem : mem ∈ db.members := List.mem_of_find?_eq_some hc
              have hcid : mem.userId = c := by
                have := List.find?_some hc
                simpa using this
              intro g2 hg2
              obtain ⟨m2, hm2, hgm2⟩ := hg2
              unfold DB.update_member_role at hm2 ⊢
              simp only at hm2
              obtain ⟨a, ha, hfa⟩ := List.mem_map.mp hm2
              have hga : a.groupId = g2 := by
                rw [← hgm2, ← hfa, role_row_groupId]
              obtain ⟨a0, ha0, hga0, hrola0⟩ := hAF g2 ⟨a, ha, hga⟩
              cases nr with
              | admin =>
                refine ⟨(if a0.groupId == mem.groupId && a0.userId == mid then
                    { a0 with role := Role.admin } else a0),
                  List.mem_map_of_mem _ ha0, ?_, ?_⟩
                · rw [role_row_groupId]; exact hga0
                · split <;> simp [hrola0]
              | member =>
                by_cases hkey : a0.groupId = mem.groupId ∧ a0.userId = mid
                · have hg2eq : g2 = mem.groupId := by rw [← hga0, hkey.1]
                  by_cases hcm : c = mid
                  · have hcount : ¬ db.get_group_admin_count mem.groupId ≤ 1 := by
                      intro hle
                      exact h3 ⟨hcm, rfl, hle⟩
                    have h2c : 2 ≤ (db.members.filter
                        (fun m => m.groupId == mem.groupId && m.role == Role.admin)).length := by
                      unfold DB.get_group_admin_count at hcount
                      omega
                    obtain ⟨a1, ha1, hga1, hrola1, hid1⟩ :=
                      exists_other_admin db.members mem.groupId mid hWF h2c
                    refine ⟨a1, ?_, by rw [hga1, hg2eq], hrola1⟩
                    exact List.mem_map.mpr ⟨a1, ha1,
                      role_row_of_not_key _ _ _ _ (fun h => hid1 h.2)⟩
                  · have hsurv : (if mem.groupId == mem.groupId && mem.userId == mid then
                        { mem with role := Role.member } else mem) = mem :=
                      role_row_of_not_key _ _ _ _
                        (fun h => hcm (by rw [← hcid]; exact h.2))
                    refine ⟨mem, ?_, hg2eq.symm, hadm⟩
                    exact List.mem_map.mpr ⟨mem, hcmem, hsurv⟩
                · refine ⟨a0, ?_, hga0, hrola0⟩
                  exact List.mem_map.mpr ⟨a0, ha0,
                    role_row_of_not_key _ _ _ _ hkey⟩

/-- A successful `remove_member` keeps invariant I2: removing a
non-admin does not change the admin set, and the guard lets an admin go
only when a second admin exists and survives. -/
theorem remove_member_preserves_admin_floor (db db2 : DB) (c mid : String)
    (hWF : db.MembersWF) (hAF : AdminFloor db)
    (hok : remove_member db c mid = Except.ok db2) :
    AdminFloor db2 := by
  cases hc : db.get_user_membership c with
  | none =>
    unfold remove_member at hok
    rw [hc] at hok
    simp at hok
  | some mem =>
    cases hm : db.get_user_membership mid with
    | none =>
      rw [remove_member_eq_none db c mid mem hc hm] at hok
      split at hok <;> simp at hok
    | some tmem =>
      rw [remove_member_eq_some db c mid mem tmem hc hm] at hok
      by_cases hperm : ¬mem.role = Role.admin ∧ ¬c = mid
      · rw [if_pos hperm] at hok; exact absurd hok (by simp)
      · rw [if_neg hperm] at hok
        by_cases hgid : tmem.groupId ≠ mem.groupId
        · rw [if_pos hgid] at hok; exact absurd hok (by simp)
        · rw [if_neg hgid] at hok
          by_cases hguard : tmem.role = Role.admin ∧
              db.get_group_admin_count mem.groupId ≤ 1
          · rw [if_pos hguard] at hok; exact absurd hok (by simp)
          · rw [if_neg hguard] at hok
            have hdb2 : db2 = db.remove_group_member mem.groupId mid := by
              injection hok with h
              exact h.symm
            subst hdb2
            unfold DB.get_user_membership at hm
            have html : tmem ∈ db.members := List.mem_of_find?_eq_some hm
            have htid : tmem.userId = mid := by
              have := List.find?_some hm
              simpa using this
            have htgid : tmem.groupId = mem.groupId := not_not.mp hgid
            intro g2 hg2
            obtain ⟨m2, hm2, hgm2⟩ := hg2
            unfold DB.remove_group_member DB.remove_member at hm2 ⊢
            simp only at hm2
            have hm2l := List.mem_of_mem_filter hm2
            obtain ⟨a0, ha0, hga0, hrola0⟩ := hAF g2 ⟨m2, hm2l, hgm2⟩
            by_cases hkey : a0.userId = mid ∧ a0.groupId = mem.groupId
            · have ha0tm : a0 = tmem :=
                key_unique db.members hWF ha0 html
                  (by rw [hkey.2, htgid]) (by rw [hkey.1, htid])
              have hadm2 : tmem.role = Role.admin := by
                rw [← ha0tm]; exact hrola0
              have hcount : ¬ db.get_group_admin_count mem.groupId ≤ 1 :=
                fun hle => hguard ⟨hadm2, hle⟩
              have h2c : 2 ≤ (db.members.filter
                  (fun m => m.groupId == mem.groupId && m.role == Role.admin)).length := by
                unfold DB.get_group_admin_count at hcount
                omega
              obtain ⟨a1, ha1, hga1, hrola1, hid1⟩ :=
                exists_other_admin db.members mem.groupId mid hWF h2c
              have hg2eq : g2 = mem.groupId := by rw [← hga0, hkey.2]
              refine ⟨a1, ?_, by rw [hga1, hg2eq], hrola1⟩
              exact List.mem_filter.mpr ⟨ha1, by simp [hid1]⟩
            · refine ⟨a0, ?_, hga0, hrola0⟩
              refine List.mem_filter.mpr ⟨ha0, ?_⟩
              have := not_and_or.mp hkey
              simpa using this

/-- The two-admin group reached by promoting `bob` in `exDB`. -/
def exDBBothAdmins : DB :=
  { members := [⟨1, "alice", Role.admin, 0⟩, ⟨1, "bob", Role.admin, 0⟩]
    payments := []
    nextId := 0 }

/-- The group left when `bob` is removed from `exDBBothAdmins`. -/
def exDBAliceOnly : DB :=
  { members := [⟨1, "alice", Role.admin, 0⟩]
    payments := []
    nextId := 0 }

/-- `exDB` satisfies the admin floor. -/
theorem adminFloor_exDB : AdminFloor exDB := by
  intro g hg
  obtain ⟨m, hm, hgm⟩ := hg
  simp only [exDB, List.mem_cons, List.not_mem_nil, or_false] at hm
  have hg1 : g = 1 := by
    rcases hm with h | h <;> rw [h] at hgm <;> exact hgm.symm
  exact ⟨⟨1, "alice", Role.admin, 0⟩, by simp [exDB], by rw [hg1], rfl⟩

/-- `exDBBothAdmins` satisfies the admin floor. -/
theorem adminFloor_exDBBothAdmins : AdminFloor exDBBothAdmins := by
  intro g hg
  obtain ⟨m, hm, hgm⟩ := hg
  simp only [exDBBothAdmins, List.mem_cons, List.not_mem_nil, or_false] at hm
  have hg1 : g = 1 := by
    rcases hm with h | h <;> rw [h] at hgm <;> exact hgm.symm
  exact ⟨⟨1, "alice", Role.admin, 0⟩, by simp [exDBBothAdmins], by rw [hg1], rfl⟩

/-- C6.  Last-admin invariant I2: any successful `update_member_role` or
`remove_member` call on a primary-key-consistent state with an admin in
every inhabited group leaves an admin in every inhabited group; and in
the concrete one-admin group, self-demotion of the only admin `alice` and
her removal both fail with the invariant-violation 400 error, while after
promoting `bob` to admin the same two calls on alice succeed. -/
theorem last_admin_guard :
    (∀ (db db2 : DB) (c mid r : String), db.MembersWF → AdminFloor db →
      update_member_role db c mid r = Except.ok db2 → AdminFloor db2)
    ∧
    (∀ (db db2 : DB) (c mid : String), db.MembersWF → AdminFloor db →
      remove_member db c mid = Except.ok db2 → AdminFloor db2)
    ∧
    DB.get_group_admin_count exDB 1 = 1
    ∧
    update_member_role exDB "alice" "alice" "member" =
      Except.error ⟨400, "Cannot demote yourself - group must have at least one admin"⟩
    ∧
    remove_member exDB "alice" "alice" =
      Except.error ⟨400, "Cannot remove the last admin from the group"⟩
    ∧
    (update_member_role exDB "alice" "bob" "admin").map (fun d =>
      ((update_member_role d "alice" "alice" "member").isOk,
       (remove_member d "alice" "alice").isOk)) = Except.ok (true, true) :=
  ⟨update_member_role_preserves_admin_floor,
   remove_member_preserves_admin_floor,
   rfl, rfl, rfl, rfl⟩

/-- Witness for `last_admin_guard`: the preservation halves applied to
the concrete promotion of `bob` (exDB → exDBBothAdmins) and the
subsequent removal of `bob` (exDBBothAdmins → exDBAliceOnly). -/
theorem last_admin_guard_witness :
    AdminFloor exDBBothAdmins ∧ AdminFloor exDBAliceOnly :=
  ⟨last_admin_guard.1 exDB exDBBothAdmins "alice" "bob" "admin"
      (by unfold DB.MembersWF exDB; simp) adminFloor_exDB rfl,
   last_admin_guard.2.1 exDBBothAdmins exDBAliceOnly "alice" "bob"
      (by unfold DB.MembersWF exDBBothAdmins; simp) adminFloor_exDBBothAdmins rfl⟩

end ClubHub
